import Mathlib

/-!
Verification of the BlueRoom games-hub client scripts.

The development shallowly embeds the catalog state engine
(src/unnamed/part_001), the sitewide search panel
(src/assets/js/global.js) and the forum/review persistence helpers
(src/unnamed/part_000) as executable Lean definitions, and proves the
spec's testable properties about them.

Modelling conventions: JavaScript numbers that can only be integers or
NaN in the relevant code paths are `Option Int` with `none` standing for
NaN; fractional trending weights use `ℚ`; absent (undefined) record
fields are `Option` fields; a query string is the ordered list of
(key, value) pairs held by `URLSearchParams`.
-/

/-- Model of JavaScript `parseInt(s, 10)`: skip leading whitespace, read an
optional sign, then the longest digit prefix; `none` models NaN when no
digit is found. -/
def parseInt10 (s : String) : Option Int :=
  let cs := s.data.dropWhile fun c => c = ' ' ∨ c = '\t' ∨ c = '\n' ∨ c = '\r'
  let signAndRest : Int × List Char :=
    match cs with
    | '-' :: rest => (-1, rest)
    | '+' :: rest => (1, rest)
    | rest => (1, rest)
  let ds := signAndRest.2.takeWhile Char.isDigit
  if ds.isEmpty then none
  else some (signAndRest.1 * (ds.foldl (fun a c => a * 10 + (c.toNat - 48)) 0 : Nat))

/-- Model of `x || d` on JS strings: `none` (null) and the empty string are
falsy and give the default. -/
def jsOrStr (v : Option String) (d : String) : String :=
  match v with
  | none => d
  | some s => if s = "" then d else s

/-- Model of `Math.max(1, x)` on a JS number that is an integer or NaN. -/
def jsMaxOne (x : Option Int) : Option Int :=
  x.map (fun v => max 1 v)

/-- Model of `Math.min` on JS numbers that are integers or NaN: NaN in
either argument makes the result NaN. -/
def jsMin (a b : Option Int) : Option Int :=
  match a, b with
  | some x, some y => some (min x y)
  | _, _ => none

/-- Whether `hay` begins with `needle` (character lists). -/
def leadsWith : List Char → List Char → Bool
  | [], _ => true
  | _ :: _, [] => false
  | a :: as, b :: bs => a = b && leadsWith as bs

/-- Model of JS `hay.includes(needle)` on character lists. -/
def charsContain (hay needle : List Char) : Bool :=
  match hay with
  | [] => leadsWith needle []
  | c :: rest => leadsWith needle (c :: rest) || charsContain rest needle

/-- Model of JS `hay.includes(needle)` on strings. -/
def strIncludes (hay needle : String) : Bool :=
  charsContain hay.data needle.data

/-- `needle` occurs contiguously inside `hay`. -/
def OccursSub (needle hay : List Char) : Prop :=
  ∃ pre post, hay = pre ++ needle ++ post

/-- Catalog item as consumed by src/unnamed/part_001 and global.js; fields
that the scripts guard with `|| default` or optional chaining are
`Option`. `created_at` is the parsed timestamp of the ISO date string. -/
structure Game where
  title : String
  summary : String
  author : String
  categories : Option (List String)
  mechanisms : Option (List String)
  difficulty : Option String
  languages : Option (List String)
  created_at : Int
  pv7_norm : Option ℚ
  guide_clicks7_norm : Option ℚ
  recency : Option ℚ
  rating : Option ℚ
  slug : String
  thumbnail : String
  play_url : String
  deriving DecidableEq

/-- Facet selections built by `parseQuery` in src/unnamed/part_001. -/
structure Filters where
  categories : List String
  mechanisms : List String
  difficulty : List String
  language : List String
  deriving DecidableEq

/-- ViewState of the catalog engine. `page` is `Option Int`: `none` models
the JS NaN that `parseInt` can produce. -/
structure ViewState where
  search : String
  sort : String
  page : Option Int
  filters : Filters
  deriving DecidableEq

/-- Ordered (key, value) pairs of a `URLSearchParams` query string. -/
def QueryParams : Type := List (String × String)

/-- Model of `params.getAll(k)`. -/
def getAllQ (ps : QueryParams) (k : String) : List String :=
  (List.filter (fun p => p.1 = k) ps).map Prod.snd

/-- Model of `params.get(k)`: first value for the key, null when absent. -/
def getQ (ps : QueryParams) (k : String) : Option String :=
  (List.find? (fun p => p.1 = k) ps).map Prod.snd

/-- `parseQuery` from src/unnamed/part_001 lines 10-24. -/
def parseQuery (ps : QueryParams) : ViewState :=
  { search := (getQ ps "search").getD ""
    sort := jsOrStr (getQ ps "sort") "trending"
    page := jsMaxOne (parseInt10 (jsOrStr (getQ ps "page") "1"))
    filters :=
      { categories := getAllQ ps "category"
        mechanisms := getAllQ ps "mechanism"
        difficulty := getAllQ ps "difficulty"
        language := getAllQ ps "language" } }

/-- `updateQuery` from src/unnamed/part_001 lines 26-45: parameters are
emitted in the insertion order `search`, `sort`, facets, `page`, with the
defaults omitted; `state.page > 1` is false for NaN, so a NaN page is
omitted too. -/
def updateQuery (state : ViewState) : QueryParams :=
  (if state.search ≠ "" then [("search", state.search)] else []) ++
  (if state.sort ≠ "" ∧ state.sort ≠ "trending" then [("sort", state.sort)] else []) ++
  (state.filters.categories.map fun v => ("category", v)) ++
  (state.filters.mechanisms.map fun v => ("mechanism", v)) ++
  (state.filters.difficulty.map fun v => ("difficulty", v)) ++
  (state.filters.language.map fun v => ("language", v)) ++
  (match state.page with
   | some p => if 1 < p then [("page", toString p)] else []
   | none => [])

/-- `computeTrendingScore` from src/unnamed/part_001 line 47. -/
def computeTrendingScore (game : Game) : ℚ :=
  (7 / 10) * game.pv7_norm.getD 0 + (2 / 10) * game.guide_clicks7_norm.getD 0 +
    (1 / 10) * game.recency.getD 0

/-- Comparator of the `trending` entry of `sorters`. -/
def cmpTrending (a b : Game) : ℚ :=
  computeTrendingScore b - computeTrendingScore a

/-- Comparator of the `new` entry of `sorters` (date difference). -/
def cmpNew (a b : Game) : ℚ :=
  ((b.created_at - a.created_at : Int) : ℚ)

/-- Comparator of the `most-rated` entry of `sorters`. -/
def cmpMostRated (a b : Game) : ℚ :=
  b.rating.getD 0 - a.rating.getD 0

/-- Comparator of the `alpha` entry of `sorters`; `lc` is the browser's
`localeCompare`, kept abstract. -/
def cmpAlpha (lc : String → String → Int) (a b : Game) : ℚ :=
  ((lc a.title b.title : Int) : ℚ)

/-- `sorters[state.sort] || sorters.trending` from src/unnamed/part_001
lines 49-54 and 189: the object holds exactly the keys `trending`, `new`,
`most-rated` and `alpha`; any other key selects the trending comparator. -/
def selectSorter (lc : String → String → Int) (key : String) : Game → Game → ℚ :=
  if key = "trending" then cmpTrending
  else if key = "new" then cmpNew
  else if key = "most-rated" then cmpMostRated
  else if key = "alpha" then cmpAlpha lc
  else cmpTrending

/-- Stable insertion of one element by a JS comparator (negative or zero
keeps the inserted element first). -/
def insertByCmp (cmp : Game → Game → ℚ) (g : Game) : List Game → List Game
  | [] => [g]
  | h :: t => if cmp g h ≤ 0 then g :: h :: t else h :: insertByCmp cmp g t

/-- Stable comparator sort modelling `Array.prototype.sort`. -/
def sortByCmp (cmp : Game → Game → ℚ) : List Game → List Game
  | [] => []
  | h :: t => insertByCmp cmp h (sortByCmp cmp t)

/-- `matchesFilters` from src/unnamed/part_001 lines 58-72; optional
chaining on an absent field makes the `some`-test falsy. -/
def matchesFilters (game : Game) (filters : Filters) : Bool :=
  if !filters.categories.isEmpty &&
      !(filters.categories.any fun cat => (game.categories.getD []).contains cat) then false
  else if !filters.mechanisms.isEmpty &&
      !(filters.mechanisms.any fun mech => (game.mechanisms.getD []).contains mech) then false
  else if !filters.difficulty.isEmpty &&
      !(match game.difficulty with
        | some d => filters.difficulty.contains d
        | none => false) then false
  else if !filters.language.isEmpty &&
      !(filters.language.any fun lang => (game.languages.getD []).contains lang) then false
  else true

/-- Model of JS `toLowerCase`, mapping `Char.toLower` over the characters. -/
def jsToLower (s : String) : String :=
  String.mk (s.data.map Char.toLower)

/-- The joined haystack built inside `matchesSearch` (join with a single
space, absent lists spread as empty). -/
def searchHaystack (game : Game) : String :=
  String.intercalate " "
    ([game.title, game.summary, game.author] ++ game.categories.getD [] ++ game.mechanisms.getD [])

/-- `matchesSearch` from src/unnamed/part_001 lines 74-86. -/
def matchesSearch (game : Game) (query : String) : Bool :=
  if query = "" then true
  else strIncludes (jsToLower (searchHaystack game)) (jsToLower query)

/-- The body of `render` from src/unnamed/part_001 lines 184-206 up to the
state mutation: filter by facets, filter by search, sort with the selected
comparator, then clamp the page with `Math.min(state.page, totalPages)`
where `totalPages = Math.max(1, Math.ceil(total / pageSize))`. Returns the
mutated ViewState. -/
def render (lc : String → String → Int) (games : List Game) (pageSize : Nat)
    (state : ViewState) : ViewState :=
  let filtered := (games.filter fun g => matchesFilters g state.filters).filter
    fun g => matchesSearch g state.search
  let sorted := sortByCmp (selectSorter lc state.sort) filtered
  let total := sorted.length
  let totalPages : Nat := max 1 ((total + pageSize - 1) / pageSize)
  { state with page := jsMin state.page (some (totalPages : Int)) }

/-- Facet names accepted by the facet-toggle handler of
src/unnamed/part_001 lines 223-241 (`state.filters[facet]` exists). -/
inductive Facet where
  | categories
  | mechanisms
  | difficulty
  | language
  deriving DecidableEq

/-- Selected values of one facet. -/
def Filters.get (f : Filters) : Facet → List String
  | Facet.categories => f.categories
  | Facet.mechanisms => f.mechanisms
  | Facet.difficulty => f.difficulty
  | Facet.language => f.language

/-- Replace the selected values of one facet. -/
def Filters.set (f : Filters) : Facet → List String → Filters
  | Facet.categories, vs => { f with categories := vs }
  | Facet.mechanisms, vs => { f with mechanisms := vs }
  | Facet.difficulty, vs => { f with difficulty := vs }
  | Facet.language, vs => { f with language := vs }

/-- The checked branch of the facet-toggle handler:
`if (!target.includes(value)) target.push(value)`. -/
def addFacetValue (f : Filters) (fc : Facet) (v : String) : Filters :=
  let target := f.get fc
  if target.contains v then f else f.set fc (target ++ [v])

/-- Filters with every facet empty, as parsed from a bare query string. -/
def emptyFilters : Filters :=
  { categories := [], mechanisms := [], difficulty := [], language := [] }

/-- Size of the filtered result set of the render pipeline. -/
def countFiltered (games : List Game) (f : Filters) (q : String) : Nat :=
  ((games.filter fun g => matchesFilters g f).filter fun g => matchesSearch g q).length

/-- Character class of JS `trim` whitespace (the subset relevant here). -/
def jsIsWhitespace (c : Char) : Bool :=
  c = ' ' ∨ c = '\t' ∨ c = '\n' ∨ c = '\r'

/-- Model of JS `trim`: strip whitespace from both ends. -/
def jsTrim (s : String) : String :=
  String.mk (((s.data.dropWhile jsIsWhitespace).reverse.dropWhile jsIsWhitespace).reverse)

/-- `normaliseString` from src/assets/js/global.js lines 18-21. -/
def normaliseString (s : String) : String :=
  jsToLower (jsTrim s)

/-- Entry of the sitewide search index built in global.js lines 49-68. -/
structure SearchItem where
  type : String
  title : String
  difficulty : String
  mechanisms : List String
  categories : List String
  author : String
  url : String
  deriving DecidableEq

/-- Guide record of the secondary catalog consumed by global.js. -/
structure Guide where
  title : String
  difficulty : String
  author : String
  slug : String
  deriving DecidableEq

/-- Mapping of a game into the search index (global.js lines 50-58). -/
def gameSearchItem (g : Game) : SearchItem :=
  { type := "game", title := g.title, difficulty := g.difficulty.getD "",
    mechanisms := g.mechanisms.getD [], categories := g.categories.getD [],
    author := g.author, url := "/games/" ++ g.slug ++ "/" }

/-- Mapping of a guide into the search index (global.js lines 59-67). -/
def guideSearchItem (g : Guide) : SearchItem :=
  { type := "guide", title := g.title, difficulty := g.difficulty,
    mechanisms := [], categories := [], author := g.author,
    url := "/guides/" ++ g.slug ++ "/" }

/-- The combined games-and-guides search index. -/
def buildSearchIndex (games : List Game) (guides : List Guide) : List SearchItem :=
  games.map gameSearchItem ++ guides.map guideSearchItem

/-- Haystack of one index entry inside the submit handler (global.js
lines 91-93): every field normalised, then joined with a space. -/
def itemHay (item : SearchItem) : String :=
  String.intercalate " "
    (([item.title, item.author] ++ item.mechanisms ++ item.categories).map normaliseString)

/-- The submit handler of global.js lines 80-103: an empty normalised
query closes the panel (no results); otherwise the index is filtered by
substring match and truncated with `.slice(0, 6)`. Returns the list of
results the panel displays. -/
def searchSubmit (index : List SearchItem) (raw : String) : List SearchItem :=
  let query := normaliseString raw
  if query = "" then []
  else (index.filter fun item => strIncludes (itemHay item) query).take 6

/-- Forum post record synthesized by `handleNewPost`
(src/unnamed/part_000 lines 122-135). -/
structure Post where
  id : String
  authorId : String
  authorName : String
  title : String
  category : String
  content : String
  tags : List String
  views : Int
  replies : Int
  likes : Int
  createdAt : Int
  deriving DecidableEq

/-- `savePost` from src/unnamed/part_000 lines 159-163: read the stored
list, `unshift` the new post, write the list back. Returns the written
list. -/
def savePost (post : Post) (existingPosts : List Post) : List Post :=
  post :: existingPosts

/-- Review record synthesized by `handleReviewSubmit`
(src/unnamed/part_000 lines 581-590). -/
structure Review where
  id : String
  gameSlug : String
  userId : String
  username : String
  rating : Int
  text : String
  helpful : Int
  createdAt : Int
  deriving DecidableEq

/-- Stored user record (mock auth), counters optional as in the JS
objects. -/
structure User where
  id : String
  username : String
  points : Option Int
  posts : Option Int
  comments : Option Int
  deriving DecidableEq

/-- Storage key of the review list of one game page. -/
def reviewsKey (slug : String) : String :=
  "blueroom_reviews_" ++ slug

/-- `saveReview` from src/unnamed/part_000 lines 614-619 acting on the
whole keyed local store: read the list under the page's key, `unshift`
the new review, write it back. -/
def saveReview (store : String → List Review) (slug : String) (review : Review) :
    String → List Review :=
  fun k => if k = reviewsKey slug then review :: store (reviewsKey slug) else store k

/-- Outcome of a review submission: the keyed review store, the stored
user record, the toast message and whether it was an error toast. -/
structure ReviewSubmitResult where
  reviews : String → List Review
  user : Option User
  message : String
  isError : Bool

/-- The submitted rating is absent/empty or a number outside `[1, 5]`. -/
def ratingInvalid : Option Int → Prop
  | none => True
  | some r => r < 1 ∨ 5 < r

/-- The submitted review text is absent or shorter than 20 characters. -/
def textTooShort : Option String → Prop
  | none => True
  | some t => t.length < 20

/-- `handleReviewSubmit` from src/unnamed/part_000 lines 553-612:
validate the rating, then the text length, then the login state; only
when all pass is a review record synthesized, prepended to the page's
stored list, and the user's counters patched (+1 comment, +10 points).
`rating` is the parsed numeric form value (`none` for absent/empty),
`now` the client timestamp. -/
def handleReviewSubmit (slug : String) (rating : Option Int) (reviewText : Option String)
    (user : Option User) (now : Int) (store : String → List Review) : ReviewSubmitResult :=
  match rating with
  | none => ⟨store, user, "Please select a rating", true⟩
  | some r =>
    if r < 1 ∨ 5 < r then ⟨store, user, "Please select a rating", true⟩
    else
      match reviewText with
      | none => ⟨store, user, "Review must be at least 20 characters", true⟩
      | some t =>
        if t.length < 20 then ⟨store, user, "Review must be at least 20 characters", true⟩
        else
          match user with
          | none => ⟨store, user, "Please login to submit a review", true⟩
          | some u =>
            let review : Review :=
              { id := "review_" ++ toString now, gameSlug := slug, userId := u.id,
                username := u.username, rating := r, text := t, helpful := 0,
                createdAt := now }
            let store' := saveReview store slug review
            let u' : User :=
              { u with comments := some (u.comments.getD 0 + 1),
                       points := some (u.points.getD 0 + 10) }
            ⟨store', some u', "Review submitted successfully! +10 points", false⟩

/-- Spec-side facet predicate: an empty selection imposes no constraint,
otherwise some selected value must be carried by the item. -/
def FacetOk (sel vals : List String) : Prop :=
  sel = [] ∨ ∃ v ∈ sel, v ∈ vals

/-- The difficulty field viewed as a value set (absent field → empty). -/
def difficultyVals (g : Game) : List String :=
  match g.difficulty with
  | some d => [d]
  | none => []

/-- Locale comparison stub used for concrete evaluations. -/
def lcZero : String → String → Int := fun _ _ => 0

/-- Concrete catalog item used in concrete evaluations. -/
def gDemo : Game :=
  { title := "Wordle Duel", summary := "daily word duel", author := "Ada",
    categories := some ["word"], mechanisms := some ["guessing"], difficulty := some "easy",
    languages := some ["en"], created_at := 10, pv7_norm := some 1,
    guide_clicks7_norm := some 0, recency := some 0, rating := some 4,
    slug := "wordle-duel", thumbnail := "w.png", play_url := "/play/wordle-duel" }

/-- Game with the higher trending score but the older creation date. -/
def gOldHot : Game :=
  { title := "Old Hot", summary := "", author := "", categories := none, mechanisms := none,
    difficulty := none, languages := none, created_at := 0, pv7_norm := some 1,
    guide_clicks7_norm := none, recency := none, rating := none, slug := "old-hot",
    thumbnail := "", play_url := "" }

/-- Game with the lower trending score but the newer creation date. -/
def gNewCold : Game :=
  { title := "New Cold", summary := "", author := "", categories := none, mechanisms := none,
    difficulty := none, languages := none, created_at := 100, pv7_norm := some 0,
    guide_clicks7_norm := none, recency := none, rating := none, slug := "new-cold",
    thumbnail := "", play_url := "" }

/-- Game without a mechanisms field. -/
def gNoMech : Game :=
  { title := "No Mech", summary := "", author := "", categories := some ["word"],
    mechanisms := none, difficulty := some "easy", languages := some ["en"],
    created_at := 0, pv7_norm := none, guide_clicks7_norm := none, recency := none,
    rating := none, slug := "no-mech", thumbnail := "", play_url := "" }

/-- Filters with an active mechanisms selection only. -/
def fMech : Filters :=
  { categories := [], mechanisms := ["dice"], difficulty := [], language := [] }

/-- Game carrying category `a` only. -/
def gCatA : Game :=
  { title := "Cat A", summary := "", author := "", categories := some ["a"],
    mechanisms := none, difficulty := none, languages := none, created_at := 0,
    pv7_norm := none, guide_clicks7_norm := none, recency := none, rating := none,
    slug := "cat-a", thumbnail := "", play_url := "" }

/-- Game carrying category `b` only. -/
def gCatB : Game :=
  { title := "Cat B", summary := "", author := "", categories := some ["b"],
    mechanisms := none, difficulty := none, languages := none, created_at := 0,
    pv7_norm := none, guide_clicks7_norm := none, recency := none, rating := none,
    slug := "cat-b", thumbnail := "", play_url := "" }

/-- Filters already selecting category `a`. -/
def fCatA : Filters :=
  { categories := ["a"], mechanisms := [], difficulty := [], language := [] }

/-- The ViewState of the round-trip property. -/
def vsRound : ViewState :=
  { search := "puzzle", sort := "newest", page := some 2,
    filters := { categories := ["logic"], mechanisms := [], difficulty := [], language := [] } }

/-- Concrete search index with one matching entry. -/
def idxDice : List SearchItem :=
  [{ type := "game", title := "Dice Tower", difficulty := "easy", mechanisms := ["dice"],
     categories := [], author := "Bo", url := "/games/dice-tower/" }]

/-- Older stored forum post. -/
def pOld : Post :=
  { id := "post_1", authorId := "u1", authorName := "Ada", title := "An older forum post",
    category := "general", content := "The first stored post of the list.", tags := [],
    views := 0, replies := 0, likes := 0, createdAt := 1 }

/-- Newly submitted forum post. -/
def pNew : Post :=
  { id := "post_2", authorId := "u2", authorName := "Bo", title := "A newly created post",
    category := "help", content := "The record synthesized by the handler.", tags := ["#x"],
    views := 0, replies := 0, likes := 0, createdAt := 2 }

/-- Older stored review. -/
def rOld : Review :=
  { id := "review_1", gameSlug := "wordle", userId := "u1", username := "ada", rating := 5,
    text := "An older review already in the list.", helpful := 0, createdAt := 1 }

/-- Newly submitted review. -/
def rNew : Review :=
  { id := "review_2", gameSlug := "wordle", userId := "u2", username := "bo", rating := 3,
    text := "The record synthesized by the handler.", helpful := 0, createdAt := 2 }

/-- Keyed review store holding one review for the wordle page. -/
def storeOne : String → List Review :=
  fun k => if k = reviewsKey "wordle" then [rOld] else []

/-- Empty keyed review store. -/
def storeEmpty : String → List Review := fun _ => []

/-- Concrete logged-in user record. -/
def uDemo : User :=
  { id := "u1", username := "ada", points := some 0, posts := some 0, comments := some 0 }


theorem leadsWith_iff (needle hay : List Char) :
    leadsWith needle hay = true ↔ ∃ post, hay = needle ++ post := by
  induction needle generalizing hay with
  | nil => simp [leadsWith]
  | cons a as ih =>
    cases hay with
    | nil =>
      simp only [leadsWith, List.cons_append]
      constructor
      · intro h; cases h
      · rintro ⟨post, h⟩; cases h
    | cons b bs =>
      simp only [leadsWith, Bool.and_eq_true, decide_eq_true_eq, ih, List.cons_append,
        List.cons.injEq]
      constructor
      · rintro ⟨hab, post, h⟩; exact ⟨post, hab.symm, h⟩
      · rintro ⟨post, hab, h⟩; exact ⟨hab.symm, post, h⟩

theorem charsContain_iff (hay needle : List Char) :
    charsContain hay needle = true ↔ OccursSub needle hay := by
  induction hay with
  | nil =>
    simp only [charsContain, leadsWith_iff, OccursSub]
    constructor
    · rintro ⟨post, h⟩
      exact ⟨[], post, by simpa using h⟩
    · rintro ⟨pre, post, h⟩
      refine ⟨post, ?_⟩
      rcases List.append_eq_nil.mp (List.append_eq_nil.mp h.symm).1 with ⟨hpre, hneedle⟩
      simp [hpre, hneedle, (List.append_eq_nil.mp h.symm).2]
  | cons c rest ih =>
    simp only [charsContain, Bool.or_eq_true, leadsWith_iff, ih, OccursSub]
    constructor
    · rintro (⟨post, h⟩ | ⟨pre, post, h⟩)
      · exact ⟨[], post, by simpa using h⟩
      · exact ⟨c :: pre, post, by simp [h]⟩
    · rintro ⟨pre, post, h⟩
      cases pre with
      | nil => exact Or.inl ⟨post, by simpa using h⟩
      | cons p ps =>
        rcases List.cons.injEq .. ▸ h with h
        simp only [List.cons_append, List.cons.injEq] at h
        exact Or.inr ⟨ps, post, h.2⟩

theorem facetCond_iff (sel vals : List String) :
    (!sel.isEmpty && !(sel.any fun v => vals.contains v)) = false ↔ FacetOk sel vals := by
  cases sel with
  | nil => simp [FacetOk]
  | cons a as =>
    simp [FacetOk, List.any_eq_true]
    by_cases hav : a ∈ vals <;> simp [hav]

theorem difficultyCond_iff (sel : List String) (g : Game) :
    (!sel.isEmpty &&
      !(match g.difficulty with
        | some d => sel.contains d
        | none => false)) = false ↔ FacetOk sel (difficultyVals g) := by
  cases hd : g.difficulty with
  | none =>
    cases sel with
    | nil => simp [FacetOk, difficultyVals, hd]
    | cons a as => simp [FacetOk, difficultyVals, hd]
  | some d =>
    cases sel with
    | nil => simp [FacetOk, difficultyVals, hd]
    | cons a as =>
      simp [FacetOk, difficultyVals, hd]
      by_cases hda : d = a <;> simp [hda]

theorem matchesFilters_iff (g : Game) (f : Filters) :
    matchesFilters g f = true ↔
      FacetOk f.categories (g.categories.getD []) ∧
      FacetOk f.mechanisms (g.mechanisms.getD []) ∧
      FacetOk f.difficulty (difficultyVals g) ∧
      FacetOk f.language (g.languages.getD []) := by
  rw [← facetCond_iff f.categories (g.categories.getD []),
    ← facetCond_iff f.mechanisms (g.mechanisms.getD []),
    ← difficultyCond_iff f.difficulty g,
    ← facetCond_iff f.language (g.languages.getD [])]
  unfold matchesFilters
  constructor
  · intro h
    split at h
    · cases h
    · split at h
      · cases h
      · split at h
        · cases h
        · split at h
          · cases h
          · refine ⟨?_, ?_, ?_, ?_⟩ <;> simp_all
  · rintro ⟨h1, h2, h3, h4⟩
    rw [h1, h2, h3, h4]
    simp

theorem filter_all_true {α : Type} (l : List α) (p : α → Bool) (h : ∀ a, p a = true) :
    l.filter p = l := by
  induction l with
  | nil => rfl
  | cons a t ih => simp [List.filter_cons, h a, ih]

theorem length_filter_filter_le {α : Type} (l : List α) (p₁ p₂ s : α → Bool)
    (h : ∀ a, p₁ a = true → p₂ a = true) :
    ((l.filter p₁).filter s).length ≤ ((l.filter p₂).filter s).length :=
  (((List.monotone_filter_right l h).filter s)).length_le

theorem matchesFilters_addValue (g : Game) (f : Filters) (fc : Facet) (v : String)
    (h : f.get fc = []) :
    matchesFilters g (addFacetValue f fc v) = true → matchesFilters g f = true := by
  intro hm
  have hset : addFacetValue f fc v = f.set fc [v] := by
    simp [addFacetValue, h]
  rw [hset] at hm
  rw [matchesFilters_iff] at hm ⊢
  cases fc with
  | categories =>
    simp only [Filters.get] at h
    simp only [Filters.set] at hm
    exact ⟨Or.inl h, hm.2.1, hm.2.2.1, hm.2.2.2⟩
  | mechanisms =>
    simp only [Filters.get] at h
    simp only [Filters.set] at hm
    exact ⟨hm.1, Or.inl h, hm.2.2.1, hm.2.2.2⟩
  | difficulty =>
    simp only [Filters.get] at h
    simp only [Filters.set] at hm
    exact ⟨hm.1, hm.2.1, Or.inl h, hm.2.2.2⟩
  | language =>
    simp only [Filters.get] at h
    simp only [Filters.set] at hm
    exact ⟨hm.1, hm.2.1, hm.2.2.1, Or.inl h⟩

/-- C1 counterexample: the sort key `newest` is not a key of `sorters`, so
it selects the trending comparator, which orders `gOldHot` (older but
higher trending score) before `gNewCold` (newer), while the createdAt
comparator named by the claim would order `gNewCold` first. -/
theorem sortKey_newest_falls_back_cex :
    selectSorter lcZero "newest" gOldHot gNewCold < 0 ∧ 0 < cmpNew gOldHot gNewCold ∧
      selectSorter lcZero "newest" gOldHot gNewCold = cmpTrending gOldHot gNewCold := by
  refine ⟨?_, ?_, rfl⟩
  · show cmpTrending gOldHot gNewCold < 0
    norm_num [cmpTrending, computeTrendingScore, gOldHot, gNewCold]
  · norm_num [cmpNew, gOldHot, gNewCold]

/-- C1 (amended): the pipeline sorts with the comparator named by sortKey
where the recognized keys are `trending`, `new`, `most-rated` and `alpha`:
`trending` descending by 0.7·pv7Norm + 0.2·guideClicks7Norm + 0.1·recency,
`new` descending by createdAt, `most-rated` descending by rating (absent
treated as 0), `alpha` by the locale-aware comparison of titles, and any
other key (including `newest`, `mostRated` and `alphabetical`) falls back
to the trending comparator. -/
theorem sorter_selection (lc : String → String → Int) (a b : Game) (k : String)
    (h1 : k ≠ "trending") (h2 : k ≠ "new") (h3 : k ≠ "most-rated") (h4 : k ≠ "alpha") :
    (selectSorter lc "trending" a b < 0 ↔ computeTrendingScore b < computeTrendingScore a) ∧
    (selectSorter lc "new" a b < 0 ↔ b.created_at < a.created_at) ∧
    (selectSorter lc "most-rated" a b < 0 ↔ b.rating.getD 0 < a.rating.getD 0) ∧
    selectSorter lc "alpha" a b = ((lc a.title b.title : Int) : ℚ) ∧
    selectSorter lc k a b = cmpTrending a b := by
  have hsel : ∀ g g' : Game, selectSorter lc k g g' = cmpTrending g g' := by
    intro g g'
    simp [selectSorter, h1, h2, h3, h4]
  refine ⟨?_, ?_, ?_, rfl, hsel a b⟩
  · show cmpTrending a b < 0 ↔ _
    exact sub_neg
  · show cmpNew a b < 0 ↔ _
    rw [cmpNew, Int.cast_lt_zero]
    omega
  · show cmpMostRated a b < 0 ↔ _
    exact sub_neg

/-- C1 witness: the unrecognized key `mostRated` selects the trending
comparator. -/
theorem sorter_selection_witness :
    selectSorter lcZero "mostRated" gOldHot gNewCold = cmpTrending gOldHot gNewCold :=
  (sorter_selection lcZero gOldHot gNewCold "mostRated" (by decide) (by decide) (by decide)
    (by decide)).2.2.2.2

/-- C2: the non-numeric page value `abc` makes `parseQuery` produce the
NaN page (`none`), not the claimed fallback `1`; absent, empty, negative
and numeric values behave as claimed. -/
theorem parseQuery_page_malformed :
    (parseQuery [("page", "abc")]).page = none ∧
      (parseQuery []).page = some 1 ∧
      (parseQuery [("page", "")]).page = some 1 ∧
      (parseQuery [("page", "-3")]).page = some 1 ∧
      (parseQuery [("page", "7")]).page = some 7 := by
  refine ⟨by decide, by decide, by decide, by decide, by decide⟩

/-- C3: with the initial URL query `page=abc` and a one-item catalog (so
the legal interval is [1, 1]), the page after the initial render is still
the NaN (`none`) produced at parse time: `Math.min(NaN, totalPages)` keeps
NaN, so the clamp invariant fails. -/
theorem render_initial_page_nan :
    (render lcZero [gDemo] 24 (parseQuery [("page", "abc")])).page = none ∧
      countFiltered [gDemo] (parseQuery [("page", "abc")]).filters
        (parseQuery [("page", "abc")]).search = 1 := by
  refine ⟨by decide, by decide⟩

/-- C4: `matchesFilters` passes an item exactly when every facet with a
non-empty selection is satisfied by at least one selected value (OR inside
a facet, AND across facets, absent selections unconstrained); an item
without the field of an actively selected facet fails. -/
theorem matchesFilters_facets (g : Game) (f : Filters) :
    (matchesFilters g f = true ↔
      FacetOk f.categories (g.categories.getD []) ∧
      FacetOk f.mechanisms (g.mechanisms.getD []) ∧
      FacetOk f.difficulty (difficultyVals g) ∧
      FacetOk f.language (g.languages.getD [])) ∧
    (g.mechanisms = none → f.mechanisms ≠ [] → matchesFilters g f = false) := by
  refine ⟨matchesFilters_iff g f, ?_⟩
  intro hnone hne
  cases hm : matchesFilters g f with
  | false => rfl
  | true =>
    exfalso
    rcases (matchesFilters_iff g f).mp hm with ⟨_, hmech, _, _⟩
    rcases hmech with h | ⟨v, _, hvmem⟩
    · exact hne h
    · rw [hnone] at hvmem
      simp at hvmem

/-- C4 witness: the item without a mechanisms field fails the filter that
selects a mechanism. -/
theorem matchesFilters_facets_witness :
    matchesFilters gNoMech fMech = false :=
  (matchesFilters_facets gNoMech fMech).2 rfl (by decide)

/-- C5 counterexample: with category `a` already selected, adding the
selected value `b` grows the filtered result set from one item to two,
refuting per-value monotonicity. -/
theorem addFacetValue_grows_cex :
    countFiltered [gCatA, gCatB] fCatA "" <
      countFiltered [gCatA, gCatB] (addFacetValue fCatA Facet.categories "b") "" := by
  decide

/-- C5 (amended): selecting zero values in all facets yields exactly the
items matching the search text, and adding a selected value to a facet
that previously had no selection never increases the size of the filtered
result set (adding to an already-active facet can increase it, as the
counterexample shows). -/
theorem filter_monotonicity (games : List Game) (q : String) (f : Filters) (fc : Facet)
    (v : String) (h : f.get fc = []) :
    ((games.filter fun g => matchesFilters g emptyFilters).filter fun g => matchesSearch g q) =
      games.filter (fun g => matchesSearch g q) ∧
    countFiltered games (addFacetValue f fc v) q ≤ countFiltered games f q := by
  constructor
  · rw [filter_all_true games (fun g => matchesFilters g emptyFilters) (fun g => rfl)]
  · exact length_filter_filter_le games _ _ _ (fun g hg => matchesFilters_addValue g f fc v h hg)

/-- C5 witness: activating category `b` on top of no selection does not
grow the two-item catalog's result set. -/
theorem filter_monotonicity_witness :
    (([gCatA, gCatB].filter fun g => matchesFilters g emptyFilters).filter
        fun g => matchesSearch g "") =
      [gCatA, gCatB].filter (fun g => matchesSearch g "") ∧
    countFiltered [gCatA, gCatB] (addFacetValue emptyFilters Facet.categories "b") "" ≤
      countFiltered [gCatA, gCatB] emptyFilters "" :=
  filter_monotonicity [gCatA, gCatB] "" emptyFilters Facet.categories "b" rfl

/-- C6: the empty query always matches, and a non-empty query matches
exactly when its case-folded text occurs as a substring of the case-folded
space-joined concatenation of title, summary, author, categories and
mechanisms. -/
theorem matchesSearch_substring (g : Game) (q : String) :
    matchesSearch g "" = true ∧
      (q ≠ "" →
        (matchesSearch g q = true ↔
          OccursSub (jsToLower q).data (jsToLower (searchHaystack g)).data)) := by
  refine ⟨rfl, fun hq => ?_⟩
  unfold matchesSearch
  rw [if_neg hq]
  exact charsContain_iff (jsToLower (searchHaystack g)).data (jsToLower q).data

/-- C6 witness: the query `DUeL` case-insensitively occurs in the demo
item's haystack. -/
theorem matchesSearch_substring_witness :
    OccursSub (jsToLower "DUeL").data (jsToLower (searchHaystack gDemo)).data :=
  ((matchesSearch_substring gDemo "DUeL").2 (by decide)).mp (by decide)

/-- C7: serializing the ViewState {search := puzzle, sort := newest,
categories := [logic], page := 2} and re-parsing the produced query string
reproduces the same ViewState. -/
theorem url_roundtrip : parseQuery (updateQuery vsRound) = vsRound := by decide

/-- C8 counterexample: `savePost` writes `[pNew, pOld]` — the new record
is `unshift`ed to the beginning, so the last element of the stored list is
still the old record, not the new one as the claim states. -/
theorem savePost_prepends_cex :
    savePost pNew [pOld] = [pNew, pOld] ∧
      (savePost pNew [pOld]).getLast? = some pOld ∧ pOld ≠ pNew := by
  refine ⟨rfl, by decide, by decide⟩

/-- C8 (amended): a validated forum post or review is prepended
(`unshift`) to the locally stored list for its page and the list is
written back, so the new record appears at the beginning of the stored
list, every previous record shifts one slot down, and other storage keys
are untouched. -/
theorem save_record_prepends (p : Post) (ps : List Post) (store : String → List Review)
    (slug : String) (r : Review) (k : String) (hk : k ≠ reviewsKey slug) :
    (savePost p ps).head? = some p ∧
    (savePost p ps).length = ps.length + 1 ∧
    (∀ i : Nat, (savePost p ps)[i + 1]? = ps[i]?) ∧
    (saveReview store slug r (reviewsKey slug)).head? = some r ∧
    (∀ i : Nat,
      (saveReview store slug r (reviewsKey slug))[i + 1]? = (store (reviewsKey slug))[i]?) ∧
    saveReview store slug r k = store k := by
  refine ⟨rfl, rfl, fun i => ?_, ?_, ?_, ?_⟩
  · simp [savePost]
  · simp [saveReview]
  · intro i
    simp [saveReview]
  · simp [saveReview, hk]

/-- C8 witness: the concrete submission prepends to the wordle page's list
and leaves the other key untouched. -/
theorem save_record_prepends_witness :
    (savePost pNew [pOld]).head? = some pNew ∧
      saveReview storeOne "wordle" rNew "other" = storeOne "other" :=
  ⟨(save_record_prepends pNew [pOld] storeOne "wordle" rNew "other" (by decide)).1,
    (save_record_prepends pNew [pOld] storeOne "wordle" rNew "other" (by decide)).2.2.2.2.2⟩

/-- C9: for every submitted query the search panel displays at most 6
results; every displayed entry case-insensitively contains the normalized
query in its title/author/mechanisms/categories haystack, and for a
non-empty normalized query the displayed list is the 6-entry-truncated
prefix of the filtered index. -/
theorem searchSubmit_capped (index : List SearchItem) (raw : String) :
    (searchSubmit index raw).length ≤ 6 ∧
      (∀ item ∈ searchSubmit index raw,
        OccursSub (normaliseString raw).data (itemHay item).data) ∧
      (normaliseString raw ≠ "" →
        ∃ rest, searchSubmit index raw ++ rest =
          index.filter fun item => strIncludes (itemHay item) (normaliseString raw)) := by
  unfold searchSubmit
  by_cases hq : normaliseString raw = ""
  · simp [hq]
  · rw [if_neg hq]
    refine ⟨?_, ?_, fun _ => ?_⟩
    · simp [List.length_take]
    · intro item hmem
      have hmem' := List.take_subset _ _ hmem
      exact (charsContain_iff _ _).mp (List.mem_filter.mp hmem').2
    · exact ⟨(index.filter fun item => strIncludes (itemHay item) (normaliseString raw)).drop 6,
        List.take_append_drop 6 _⟩

/-- C9 witness: the query `Dice ` (normalized to `dice`) yields the
filtered index as a truncated prefix on the concrete one-entry index. -/
theorem searchSubmit_capped_witness :
    ∃ rest, searchSubmit idxDice "Dice " ++ rest =
      idxDice.filter fun item => strIncludes (itemHay item) (normaliseString "Dice ") :=
  (searchSubmit_capped idxDice "Dice ").2.2 (by decide)

/-- C10: a review submission whose rating is absent or outside [1, 5], or
whose text is absent or shorter than 20 characters, is rejected before any
write: the keyed review store and the stored user record are returned
unchanged and an error toast is shown, so no record is created. -/
theorem handleReviewSubmit_rejects (slug : String) (rating : Option Int)
    (text : Option String) (user : Option User) (now : Int) (store : String → List Review)
    (h : ratingInvalid rating ∨ textTooShort text) :
    (handleReviewSubmit slug rating text user now store).reviews = store ∧
    (handleReviewSubmit slug rating text user now store).user = user ∧
    (handleReviewSubmit slug rating text user now store).isError = true := by
  cases rating with
  | none => exact ⟨rfl, rfl, rfl⟩
  | some r =>
    by_cases hr : r < 1 ∨ 5 < r
    · simp [handleReviewSubmit, hr]
    · have ht : textTooShort text := by
        rcases h with h | h
        · exact absurd h hr
        · exact h
      cases text with
      | none => simp [handleReviewSubmit, hr]
      | some t =>
        have htl : t.length < 20 := ht
        simp [handleReviewSubmit, hr, htl]

/-- C10 witness: the out-of-range rating 9 with a long-enough text leaves
the empty store and the user record unchanged and reports an error. -/
theorem handleReviewSubmit_rejects_witness :
    (handleReviewSubmit "wordle" (some 9) (some "this review is long enough to pass")
        (some uDemo) 0 storeEmpty).reviews = storeEmpty ∧
      (handleReviewSubmit "wordle" (some 9) (some "this review is long enough to pass")
        (some uDemo) 0 storeEmpty).user = some uDemo ∧
      (handleReviewSubmit "wordle" (some 9) (some "this review is long enough to pass")
        (some uDemo) 0 storeEmpty).isError = true :=
  handleReviewSubmit_rejects "wordle" (some 9) (some "this review is long enough to pass")
    (some uDemo) 0 storeEmpty (Or.inl (Or.inr (by decide)))
